import Mathlib

/-
  Verification development for itkBinaryDilateParaImageFilter
  (ITKParabolicMorphology, src/include/itkBinaryDilateParaImageFilter.h).

  The header declares the filter: a binary dilation by circles/spheres or
  axis-aligned boxes, realised by thresholding a separable parabolic
  (distance-like) transform.  The header holds the typedefs, the inline
  SetUseImageSpacing forwarding, and the set/get declarations; the bodies of
  GenerateData, SetRadius(scalar) and Modified live in the companion .hxx,
  which is not part of the sources here, so those bodies are modelled from
  the specification document.
-/

/-- A binary image grid: per-axis extents, physical spacing, origin, and the
binary pixel data indexed by integer index tuples. -/
structure GridT where
  dims : List Nat
  spacing : List ℚ
  origin : List ℚ
  data : List Nat → Bool

/-- One internal sub-pipeline stage (a parabolic transform instance): its
UseImageSpacing flag and its own modification timestamp. -/
structure SubPipeline where
  useImageSpacing : Bool
  mtime : Nat

/-- The state of the BinaryDilateParaImageFilter: m_Radius, m_Circular, its
own modification timestamp, and the two sub-pipelines m_CircPara and
m_RectPara (the cast stages carry no parameters we track). -/
structure FilterState where
  radius : List ℚ
  circular : Bool
  mtime : Nat
  circPara : SubPipeline
  rectPara : SubPipeline

/-- All index tuples of a grid with the given per-axis extents. -/
def allIndices : List Nat → List (List Nat)
  | [] => [[]]
  | d :: ds => (List.range d).flatMap (fun i => (allIndices ds).map (fun t => i :: t))

/-- The displacement between index tuples `p` and `q` along axis `i`,
scaled by the grid spacing when UseImageSpacing is set. -/
def axisDiff (useSp : Bool) (sp : List ℚ) (p q : List Nat) (i : Nat) : ℚ :=
  (((p.getD i 0 : Nat) : ℚ) - ((q.getD i 0 : Nat) : ℚ)) * (if useSp then sp.getD i 1 else 1)

/-- Modelled from the spec: the per-axis contribution of the circular-mode
distance measure (the .hxx body of GenerateData is missing).  For a positive
radius the axis contributes the squared displacement normalised by the
radius; the combined measure is within bound iff the (spacing-scaled)
Euclidean distance is within the radius.  A non-positive radius component is
the documented degenerate case: no dilation along that axis, so any nonzero
displacement puts the point out of bounds. -/
def circTerm (r d : ℚ) : ℚ :=
  if r ≤ 0 then (if d = 0 then 0 else 2) else (d / r) ^ 2

/-- Modelled from the spec: circular mode classifies `p` as reached from a
foreground voxel `q` when the combined-axis measure is within the bound
derived from Radius. -/
def circCond (r : List ℚ) (useSp : Bool) (sp : List ℚ) (p q : List Nat) : Bool :=
  decide ((((List.range r.length).map
    (fun i => circTerm (r.getD i 0) (axisDiff useSp sp p q i))).sum : ℚ) ≤ 1)

/-- Modelled from the spec: rectangular mode treats each axis independently;
axis `i` is within bound when the (spacing-scaled) displacement is at most
that axis's radius component, with a non-positive component degenerating to
no dilation along the axis. -/
def rectCond (r : List ℚ) (useSp : Bool) (sp : List ℚ) (p q : List Nat) : Bool :=
  (List.range r.length).all (fun i =>
    decide (if r.getD i 0 ≤ 0 then axisDiff useSp sp p q i = 0
            else |axisDiff useSp sp p q i| ≤ r.getD i 0))

/-- Modelled from the spec: whether output voxel `p` is reached from input
voxel `q` by the structuring element of the active mode. -/
def inSE (f : FilterState) (g : GridT) (p q : List Nat) : Bool :=
  if f.circular then circCond f.radius f.circPara.useImageSpacing g.spacing p q
  else rectCond f.radius f.rectPara.useImageSpacing g.spacing p q

/-- Modelled from the spec: one output voxel of the dilation, foreground iff
some foreground input voxel reaches it through the structuring element. -/
def dilateAt (f : FilterState) (g : GridT) (p : List Nat) : Bool :=
  (allIndices g.dims).any (fun q => g.data q && inSE f g p q)

/-- Modelled from the spec: GenerateData / Execute (the .hxx body is
missing).  The only fatal failure is a dimensionality mismatch between the
input grid's axis count and Radius's component count; otherwise the output
grid has the input's extent, spacing and origin, with each voxel produced by
the active transform-and-threshold pipeline. -/
def Execute (f : FilterState) (g : GridT) : Except String GridT :=
  if g.dims.length = f.radius.length then
    Except.ok { dims := g.dims, spacing := g.spacing, origin := g.origin,
                data := fun p => dilateAt f g p }
  else
    Except.error "dimensionality mismatch between input grid and Radius"

/-- Modelled from the spec: the aggregated last-changed marker, taking the
most recent of the core's own counter and both sub-pipelines' counters. -/
def FilterState.GetMTime (f : FilterState) : Nat :=
  max f.mtime (max f.circPara.mtime f.rectPara.mtime)

/-- Modelled from the spec: Modified advances the core's generation counter
past everything already recorded (the .hxx body is missing). -/
def FilterState.Modified (f : FilterState) : FilterState :=
  { f with mtime := f.GetMTime + 1 }

/-- Modelled from the spec: the ParabolicDilateImageFilter collaborator's
SetUseImageSpacing (its sources are not included): it records the flag and
reports its own modification when the value actually changes. -/
def subSetUseImageSpacing (globalT : Nat) (s : SubPipeline) (g : Bool) : SubPipeline :=
  if s.useImageSpacing = g then s else { useImageSpacing := g, mtime := globalT + 1 }

/-- From the header (lines 101-105): SetUseImageSpacing forwards the flag to
m_RectPara and then m_CircPara, regardless of the active mode. -/
def FilterState.SetUseImageSpacing (f : FilterState) (g : Bool) : FilterState :=
  let f1 := { f with rectPara := subSetUseImageSpacing f.GetMTime f.rectPara g }
  { f1 with circPara := subSetUseImageSpacing f1.GetMTime f1.circPara g }

/-- Directly reconfiguring the circular sub-pipeline (spec: changes made
directly on a sub-pipeline must also advance the aggregated marker). -/
def FilterState.directCircSetUseImageSpacing (f : FilterState) (g : Bool) : FilterState :=
  { f with circPara := subSetUseImageSpacing f.GetMTime f.circPara g }

/-- From the header's set-method for Circular: store the flag and signal
Modified when the value changes. -/
def FilterState.SetCircular (f : FilterState) (b : Bool) : FilterState :=
  if f.circular = b then f else FilterState.Modified { f with circular := b }

/-- From the header's set-method for Radius (per-axis tuple): store the
tuple and signal Modified when the value changes. -/
def FilterState.SetRadiusTuple (f : FilterState) (r : List ℚ) : FilterState :=
  if f.radius = r then f else FilterState.Modified { f with radius := r }

/-- Modelled from the spec: SetRadius(scalar) fills every component of the
Radius tuple with the scalar (the .hxx body is missing). -/
def FilterState.SetRadius (f : FilterState) (v : ℚ) : FilterState :=
  f.SetRadiusTuple (List.replicate f.radius.length v)

/-- From the header's get-method for Radius: pure accessor. -/
def FilterState.GetRadius (f : FilterState) : List ℚ := f.radius

/-- From the header's get-method for Circular: pure accessor. -/
def FilterState.GetCircular (f : FilterState) : Bool := f.circular

/-
  Concrete instances for the scenario claims: a 5x5 grid of spacing 1.0 with
  a single foreground voxel at its centre (2,2), and filter states for the
  circular and rectangular scenarios.
-/

/-- A 5x5 binary grid of spacing 1.0 whose only foreground voxel is the
centre (2,2). -/
def centerGrid5 : GridT :=
  { dims := [5, 5], spacing := [1, 1], origin := [0, 0],
    data := fun p => decide (p = [2, 2]) }

/-- Filter configured with Radius = (2.0, 2.0), Circular = true. -/
def circFilt : FilterState :=
  { radius := [2, 2], circular := true, mtime := 0,
    circPara := { useImageSpacing := false, mtime := 0 },
    rectPara := { useImageSpacing := false, mtime := 0 } }

/-- Filter configured with Radius = (2.0, 1.0), Circular = false. -/
def rectFilt : FilterState :=
  { radius := [2, 1], circular := false, mtime := 0,
    circPara := { useImageSpacing := false, mtime := 0 },
    rectPara := { useImageSpacing := false, mtime := 0 } }

/-- Squared Euclidean distance between two index tuples (unit spacing). -/
def euclidSqZ (p c : List Nat) : ℤ :=
  ((List.range p.length).map
    (fun i => ((p.getD i 0 : ℤ) - (c.getD i 0 : ℤ)) ^ 2)).sum

/-- The output grid of the circular scenario. -/
def circOut : GridT :=
  { dims := [5, 5], spacing := [1, 1], origin := [0, 0],
    data := fun p => dilateAt circFilt centerGrid5 p }

/-- The output grid of the rectangular scenario. -/
def rectOut : GridT :=
  { dims := [5, 5], spacing := [1, 1], origin := [0, 0],
    data := fun p => dilateAt rectFilt centerGrid5 p }

/-- C1: for a single centre foreground voxel on a 2D unit-spacing grid with
Radius = (2.0, 2.0) and Circular = true, Execute succeeds and the output
foreground set is exactly the grid points whose Euclidean distance from the
centre is at most 2 (squared distance at most 4), boundary included. -/
theorem circular_disc_scenario :
    Execute circFilt centerGrid5 = Except.ok circOut ∧
    ∀ p ∈ allIndices [5, 5], circOut.data p = decide (euclidSqZ p [2, 2] ≤ 4) := by
  refine ⟨rfl, ?_⟩
  with_unfolding_all decide

/-- Witness for C1 at the concrete boundary voxel (2,0), at Euclidean
distance exactly 2 from the centre. -/
theorem circular_disc_scenario_witness :
    circOut.data [2, 0] = decide (euclidSqZ [2, 0] [2, 2] ≤ 4) :=
  circular_disc_scenario.2 [2, 0] (by with_unfolding_all decide)

/-- C2: for the same single-centre-voxel input with Radius = (2.0, 1.0) and
Circular = false, Execute succeeds and the output foreground set is exactly
the axis-aligned box of grid points within 2 of the centre on axis 0 and
within 1 on axis 1. -/
theorem rectangular_box_scenario :
    Execute rectFilt centerGrid5 = Except.ok rectOut ∧
    ∀ p ∈ allIndices [5, 5], rectOut.data p
      = decide (|(p.getD 0 0 : ℤ) - 2| ≤ 2 ∧ |(p.getD 1 0 : ℤ) - 2| ≤ 1) := by
  refine ⟨rfl, ?_⟩
  with_unfolding_all decide

/-- Witness for C2 at the concrete corner voxel (0,1) of the box. -/
theorem rectangular_box_scenario_witness :
    rectOut.data [0, 1] = decide (|(0 : ℤ) - 2| ≤ 2 ∧ |(1 : ℤ) - 2| ≤ 1) :=
  rectangular_box_scenario.2 [0, 1] (by with_unfolding_all decide)

/-- C7: whenever Execute succeeds, the output grid has the input's extent,
spacing and origin. -/
theorem execute_shape_preservation (f : FilterState) (g out : GridT)
    (h : Execute f g = Except.ok out) :
    out.dims = g.dims ∧ out.spacing = g.spacing ∧ out.origin = g.origin := by
  unfold Execute at h
  split at h
  · injection h with h2
    subst h2
    exact ⟨rfl, rfl, rfl⟩
  · exact absurd h (by simp)

/-- Witness for C7: the circular scenario's output preserves the input
grid's shape data. -/
theorem execute_shape_preservation_witness :
    circOut.dims = centerGrid5.dims ∧ circOut.spacing = centerGrid5.spacing ∧
      circOut.origin = centerGrid5.origin :=
  execute_shape_preservation circFilt centerGrid5 circOut rfl

/-- C8: Execute is a deterministic function of the filter parameters and
the input grid: equal parameters and equal inputs give identical outputs. -/
theorem execute_deterministic (f1 f2 : FilterState) (g1 g2 : GridT)
    (h1 : f1 = f2) (h2 : g1 = g2) : Execute f1 g1 = Execute f2 g2 := by
  rw [h1, h2]

/-- Witness for C8: two invocations on the circular scenario agree. -/
theorem execute_deterministic_witness :
    Execute circFilt centerGrid5 = Execute circFilt centerGrid5 :=
  execute_deterministic circFilt circFilt centerGrid5 centerGrid5 rfl rfl

/-- C9: SetRadius with a scalar fills every component of the Radius tuple
with that scalar, so GetRadius then returns the constant tuple of the
original length. -/
theorem setradius_scalar_broadcast (f : FilterState) (v : ℚ) :
    (f.SetRadius v).GetRadius = List.replicate f.radius.length v ∧
    (f.SetRadius v).GetRadius.length = f.radius.length := by
  unfold FilterState.SetRadius FilterState.SetRadiusTuple FilterState.GetRadius
    FilterState.Modified
  by_cases h : f.radius = List.replicate f.radius.length v
  · rw [if_pos h]
    exact ⟨h, rfl⟩
  · rw [if_neg h]
    exact ⟨rfl, List.length_replicate _ _⟩

lemma mtime_le_GetMTime (f : FilterState) : f.mtime ≤ f.GetMTime :=
  Nat.le_max_left _ _

lemma circ_mtime_le_GetMTime (f : FilterState) : f.circPara.mtime ≤ f.GetMTime :=
  Nat.le_trans (Nat.le_max_left _ _) (Nat.le_max_right _ _)

lemma rect_mtime_le_GetMTime (f : FilterState) : f.rectPara.mtime ≤ f.GetMTime :=
  Nat.le_trans (Nat.le_max_right _ _) (Nat.le_max_right _ _)

/-- C4: SetUseImageSpacing stores the flag on both sub-pipelines regardless
of the active mode, while SetCircular changes only the mode flag (plus the
staleness marker), so toggling Circular once or twice leaves both
sub-pipelines' UseImageSpacing flags, and the Radius, unchanged. -/
theorem spacing_flag_mode_independence (f : FilterState) (g b b' : Bool) :
    ((f.SetUseImageSpacing g).circPara.useImageSpacing = g ∧
     (f.SetUseImageSpacing g).rectPara.useImageSpacing = g) ∧
    ((f.SetCircular b).circular = b ∧
     (f.SetCircular b).circPara.useImageSpacing = f.circPara.useImageSpacing ∧
     (f.SetCircular b).rectPara.useImageSpacing = f.rectPara.useImageSpacing ∧
     (f.SetCircular b).radius = f.radius) ∧
    (((f.SetCircular b).SetCircular b').circPara.useImageSpacing
        = f.circPara.useImageSpacing ∧
     ((f.SetCircular b).SetCircular b').rectPara.useImageSpacing
        = f.rectPara.useImageSpacing) := by
  unfold FilterState.SetUseImageSpacing FilterState.SetCircular subSetUseImageSpacing
    FilterState.Modified
  dsimp only
  split_ifs <;> simp_all

/-- Witness for C5 below is stated over concrete mutations; this theorem
needs none of its own. -/
theorem marker_advances_on_mutation (f : FilterState) (r2 : List ℚ) (b g : Bool) :
    (r2 ≠ f.radius → f.GetMTime < (f.SetRadiusTuple r2).GetMTime) ∧
    (b ≠ f.circular → f.GetMTime < (f.SetCircular b).GetMTime) ∧
    ((g ≠ f.circPara.useImageSpacing ∨ g ≠ f.rectPara.useImageSpacing) →
       f.GetMTime < (f.SetUseImageSpacing g).GetMTime) ∧
    (g ≠ f.circPara.useImageSpacing →
       f.GetMTime < (f.directCircSetUseImageSpacing g).GetMTime) := by
  unfold FilterState.SetRadiusTuple FilterState.SetCircular FilterState.SetUseImageSpacing
    FilterState.directCircSetUseImageSpacing subSetUseImageSpacing FilterState.Modified
    FilterState.GetMTime
  dsimp only
  refine ⟨?_, ?_, ?_, ?_⟩ <;> intro h <;> split_ifs <;> simp_all <;> omega

/-- Witness for C5: on the circular scenario filter, each kind of mutation
(radius tuple, mode flag, spacing flag through the filter, spacing flag
directly on a sub-pipeline) advances the aggregated marker. -/
theorem marker_advances_on_mutation_witness :
    circFilt.GetMTime < (circFilt.SetRadiusTuple [3, 3]).GetMTime ∧
    circFilt.GetMTime < (circFilt.SetCircular false).GetMTime ∧
    circFilt.GetMTime < (circFilt.SetUseImageSpacing true).GetMTime ∧
    circFilt.GetMTime < (circFilt.directCircSetUseImageSpacing true).GetMTime := by
  have T := marker_advances_on_mutation circFilt [3, 3] false true
  exact ⟨T.1 (by with_unfolding_all decide), T.2.1 (by decide),
    T.2.2.1 (Or.inl (by decide)), T.2.2.2 (by decide)⟩

/-
  Monotonicity of the dilation in the radius (claim C3).
-/

lemma circTerm_nonneg (r d : ℚ) : 0 ≤ circTerm r d := by
  unfold circTerm
  split
  · split <;> norm_num
  · positivity

lemma circTerm_mono (r r' d : ℚ) (hrr : r ≤ r') (hle : circTerm r d ≤ 1) :
    circTerm r' d ≤ circTerm r d := by
  unfold circTerm at *
  by_cases hr : r ≤ 0
  · rw [if_pos hr] at *
    by_cases hd : d = 0
    · rw [if_pos hd] at *
      split
      · exact le_refl 0
      · rw [hd]
        norm_num
    · rw [if_neg hd] at hle
      norm_num at hle
  · push_neg at hr
    have hr' : ¬ r' ≤ 0 := by linarith
    rw [if_neg hr', if_neg (not_le.mpr hr)] at *
    rw [div_pow, div_pow]
    have h1 : (0 : ℚ) < r ^ 2 := by positivity
    have h2 : r ^ 2 ≤ r' ^ 2 := by nlinarith
    have h3 : (0 : ℚ) ≤ d ^ 2 := by positivity
    rw [div_le_div_iff (pow_pos (not_le.mp hr') 2) h1]
    exact mul_le_mul_of_nonneg_left h2 h3

lemma circCond_mono (r r' : List ℚ) (useSp : Bool) (sp : List ℚ) (p q : List Nat)
    (hlen : r'.length = r.length)
    (hmono : ∀ i, i < r.length → r.getD i 0 ≤ r'.getD i 0)
    (h : circCond r useSp sp p q = true) : circCond r' useSp sp p q = true := by
  unfold circCond at *
  rw [decide_eq_true_iff] at *
  rw [hlen]
  refine le_trans (List.sum_le_sum ?_) h
  intro i hi
  have hi' := List.mem_range.mp hi
  apply circTerm_mono _ _ _ (hmono i hi')
  refine le_trans (List.single_le_sum ?_ _ ?_) h
  · intro x hx
    obtain ⟨j, hj, hjx⟩ := List.mem_map.mp hx
    rw [← hjx]
    exact circTerm_nonneg _ _
  · exact List.mem_map.mpr ⟨i, hi, rfl⟩

lemma rectCond_mono (r r' : List ℚ) (useSp : Bool) (sp : List ℚ) (p q : List Nat)
    (hlen : r'.length = r.length)
    (hmono : ∀ i, i < r.length → r.getD i 0 ≤ r'.getD i 0)
    (h : rectCond r useSp sp p q = true) : rectCond r' useSp sp p q = true := by
  unfold rectCond at *
  rw [List.all_eq_true] at *
  rw [hlen]
  intro i hi
  have hi' := List.mem_range.mp hi
  have hh := h i hi
  rw [decide_eq_true_iff] at *
  have hm := hmono i hi'
  by_cases hr : r.getD i 0 ≤ 0
  · rw [if_pos hr] at hh
    by_cases hr' : r'.getD i 0 ≤ 0
    · rw [if_pos hr']
      exact hh
    · rw [if_neg hr']
      rw [hh]
      simp only [abs_zero]
      linarith [not_le.mp hr']
  · rw [if_neg hr] at hh
    have hr' : ¬ r'.getD i 0 ≤ 0 := by
      push_neg at hr ⊢
      linarith
    rw [if_neg hr']
    exact le_trans hh hm

lemma inSE_mono (f : FilterState) (r2 : List ℚ) (g : GridT) (p q : List Nat)
    (hlen : r2.length = f.radius.length)
    (hmono : ∀ i, i < f.radius.length → f.radius.getD i 0 ≤ r2.getD i 0)
    (h : inSE f g p q = true) : inSE { f with radius := r2 } g p q = true := by
  unfold inSE at *
  dsimp only at *
  by_cases hc : f.circular = true
  · rw [if_pos hc] at *
    exact circCond_mono _ _ _ _ _ _ hlen hmono h
  · rw [if_neg hc] at *
    exact rectCond_mono _ _ _ _ _ _ hlen hmono h

lemma dilateAt_mono (f : FilterState) (r2 : List ℚ) (g : GridT) (p : List Nat)
    (hlen : r2.length = f.radius.length)
    (hmono : ∀ i, i < f.radius.length → f.radius.getD i 0 ≤ r2.getD i 0)
    (h : dilateAt f g p = true) : dilateAt { f with radius := r2 } g p = true := by
  unfold dilateAt at *
  rw [List.any_eq_true] at *
  obtain ⟨q, hq, hcond⟩ := h
  rw [Bool.and_eq_true] at hcond
  refine ⟨q, hq, ?_⟩
  rw [Bool.and_eq_true]
  exact ⟨hcond.1, inSE_mono f r2 g p q hlen hmono hcond.2⟩

/-- C3: for a fixed input grid and mode, enlarging the radius tuple
componentwise never removes an output foreground voxel: every voxel
foreground under Execute at the smaller radius is foreground at the
larger one. -/
theorem dilation_radius_monotone (f : FilterState) (r2 : List ℚ)
    (g out out2 : GridT) (p : List Nat)
    (hlen : r2.length = f.radius.length)
    (hmono : ∀ i, i < f.radius.length → f.radius.getD i 0 ≤ r2.getD i 0)
    (h1 : Execute f g = Except.ok out)
    (h2 : Execute { f with radius := r2 } g = Except.ok out2)
    (hfg : out.data p = true) : out2.data p = true := by
  by_cases hg : g.dims.length = f.radius.length
  · unfold Execute at h1 h2
    rw [if_pos hg] at h1
    have hg2 : g.dims.length = r2.length := by
      rw [hlen]
      exact hg
    rw [if_pos (show g.dims.length = ({ f with radius := r2 } : FilterState).radius.length
      from hg2)] at h2
    injection h1 with e1
    injection h2 with e2
    subst e1
    subst e2
    exact dilateAt_mono f r2 g p hlen hmono hfg
  · unfold Execute at h1
    rw [if_neg hg] at h1
    exact absurd h1 (by simp)

/-- Circular-scenario filter with the smaller radius (1.0, 1.0). -/
def smallCircFilt : FilterState :=
  { radius := [1, 1], circular := true, mtime := 0,
    circPara := { useImageSpacing := false, mtime := 0 },
    rectPara := { useImageSpacing := false, mtime := 0 } }

/-- Output of the smaller-radius circular dilation. -/
def smallCircOut : GridT :=
  { dims := [5, 5], spacing := [1, 1], origin := [0, 0],
    data := fun p => dilateAt smallCircFilt centerGrid5 p }

/-- Output of the same filter after growing the radius to (2.0, 2.0). -/
def grownCircOut : GridT :=
  { dims := [5, 5], spacing := [1, 1], origin := [0, 0],
    data := fun p => dilateAt { smallCircFilt with radius := [2, 2] } centerGrid5 p }

/-- Witness for C3: the voxel (2,1), foreground at radius (1,1), stays
foreground at radius (2,2). -/
theorem dilation_radius_monotone_witness : grownCircOut.data [2, 1] = true :=
  dilation_radius_monotone smallCircFilt [2, 2] centerGrid5 smallCircOut grownCircOut [2, 1]
    (by decide) (by with_unfolding_all decide) rfl rfl (by with_unfolding_all decide)

/-- The UseImageSpacing flag of the sub-pipeline selected by the mode. -/
def activeUseImageSpacing (f : FilterState) : Bool :=
  if f.circular then f.circPara.useImageSpacing else f.rectPara.useImageSpacing

/-- C6: Execute never fails for any radius values when the dimensions agree;
it fails (producing an error and no output grid) exactly on a
dimensionality mismatch; and a non-positive radius component is a no-op on
that axis: any foreground output voxel is reached from a foreground input
voxel with zero displacement along that axis. -/
theorem execute_error_policy (f f2 : FilterState) (g : GridT) (i : Nat) (p : List Nat) :
    (g.dims.length = f.radius.length → ∃ out, Execute f g = Except.ok out) ∧
    (g.dims.length ≠ f2.radius.length → ∃ e, Execute f2 g = Except.error e) ∧
    (i < f.radius.length → f.radius.getD i 0 ≤ 0 → dilateAt f g p = true →
      ∃ q, q ∈ allIndices g.dims ∧ g.data q = true ∧
        axisDiff (activeUseImageSpacing f) g.spacing p q i = 0) := by
  refine ⟨?_, ?_, ?_⟩
  · intro h
    unfold Execute
    rw [if_pos h]
    exact ⟨_, rfl⟩
  · intro h
    unfold Execute
    rw [if_neg h]
    exact ⟨_, rfl⟩
  · intro hi hr hd
    unfold dilateAt at hd
    rw [List.any_eq_true] at hd
    obtain ⟨q, hq, hcond⟩ := hd
    rw [Bool.and_eq_true] at hcond
    refine ⟨q, hq, hcond.1, ?_⟩
    have hse := hcond.2
    unfold inSE at hse
    unfold activeUseImageSpacing
    by_cases hc : f.circular = true
    · rw [if_pos hc] at hse ⊢
      unfold circCond at hse
      rw [decide_eq_true_iff] at hse
      have hmem : circTerm (f.radius.getD i 0)
          (axisDiff f.circPara.useImageSpacing g.spacing p q i) ∈
          (List.range f.radius.length).map
            (fun j => circTerm (f.radius.getD j 0)
              (axisDiff f.circPara.useImageSpacing g.spacing p q j)) :=
        List.mem_map.mpr ⟨i, List.mem_range.mpr hi, rfl⟩
      have hnn : ∀ x ∈ (List.range f.radius.length).map
          (fun j => circTerm (f.radius.getD j 0)
            (axisDiff f.circPara.useImageSpacing g.spacing p q j)), (0 : ℚ) ≤ x := by
        intro x hx
        obtain ⟨j, hj, hjx⟩ := List.mem_map.mp hx
        rw [← hjx]
        exact circTerm_nonneg _ _
      have hle1 : circTerm (f.radius.getD i 0)
          (axisDiff f.circPara.useImageSpacing g.spacing p q i) ≤ 1 :=
        le_trans (List.single_le_sum hnn _ hmem) hse
      unfold circTerm at hle1
      rw [if_pos hr] at hle1
      by_contra hne
      rw [if_neg hne] at hle1
      norm_num at hle1
    · rw [if_neg hc] at hse ⊢
      unfold rectCond at hse
      rw [List.all_eq_true] at hse
      have hax := hse i (List.mem_range.mpr hi)
      rw [decide_eq_true_iff, if_pos hr] at hax
      exact hax

/-- Circular filter with a degenerate (negative) radius on axis 1. -/
def degenFilt : FilterState :=
  { radius := [2, -1], circular := true, mtime := 0,
    circPara := { useImageSpacing := false, mtime := 0 },
    rectPara := { useImageSpacing := false, mtime := 0 } }

/-- A filter whose radius tuple has only one component, mismatching the 2D
grid. -/
def shortFilt : FilterState :=
  { radius := [1], circular := true, mtime := 0,
    circPara := { useImageSpacing := false, mtime := 0 },
    rectPara := { useImageSpacing := false, mtime := 0 } }

/-- Witness for C6: the degenerate-radius filter still succeeds on the 5x5
grid, the one-component filter fails on it, and the foreground voxel (1,2)
of the degenerate output is reached with zero displacement on axis 1. -/
theorem execute_error_policy_witness :
    (∃ out, Execute degenFilt centerGrid5 = Except.ok out) ∧
    (∃ e, Execute shortFilt centerGrid5 = Except.error e) ∧
    (∃ q, q ∈ allIndices centerGrid5.dims ∧ centerGrid5.data q = true ∧
      axisDiff (activeUseImageSpacing degenFilt) centerGrid5.spacing [1, 2] q 1 = 0) := by
  have T := execute_error_policy degenFilt shortFilt centerGrid5 1 [1, 2]
  exact ⟨T.1 (by decide), T.2.1 (by decide),
    T.2.2 (by decide) (by with_unfolding_all decide) (by with_unfolding_all decide)⟩

/-
  Type-level embedding of the header's typedefs (C10).  The header fixes
  InternalIntType = short (a 16-bit integer type) at lines 84-87, and at
  lines 124-129 instantiates the pipeline stages:
    CircParabolicType = ParabolicDilateImageFilter<TInputImage, InternalRealImageType>
    RectParabolicType = ParabolicDilateImageFilter<TInputImage, InternalRealImageType>
    CCastType = BinaryThresholdImageFilter<InternalRealImageType, OutputImageType>
    RCastType = BinaryThresholdImageFilter<InternalRealImageType, OutputImageType>
  so the image type that threads the pipeline (parabolic output = threshold
  input) is the floating-point internal image type, while the short-typed
  InternalIntImageType typedef is never used by any stage.
-/

/-- The C++ types that appear in the header's typedefs. -/
inductive CppType where
  | shortT : CppType
  | floatT : CppType
  | inputPixelT : CppType
  | outputPixelT : CppType
  | imageT : CppType → Nat → CppType
deriving DecidableEq

/-- Header line 84: InternalRealType = NumericTraits<PixelType>::FloatType. -/
def InternalRealType : CppType := CppType.floatT

/-- Header line 87: InternalIntType = short. -/
def InternalIntType : CppType := CppType.shortT

/-- Header line 124: InternalRealImageType = Image<InternalRealType, dim>. -/
def InternalRealImageType (dim : Nat) : CppType := CppType.imageT InternalRealType dim

/-- Header line 125: InternalIntImageType = Image<InternalIntType, dim>. -/
def InternalIntImageType (dim : Nat) : CppType := CppType.imageT InternalIntType dim

/-- Header line 126: the output image type of CircParabolicType, the second
template argument of ParabolicDilateImageFilter. -/
def circParaOutputImageType (dim : Nat) : CppType := InternalRealImageType dim

/-- Header line 127: the output image type of RectParabolicType. -/
def rectParaOutputImageType (dim : Nat) : CppType := InternalRealImageType dim

/-- Header line 128: the input image type of CCastType, the first template
argument of BinaryThresholdImageFilter. -/
def cCastInputImageType (dim : Nat) : CppType := InternalRealImageType dim

/-- Header line 129: the input image type of RCastType. -/
def rCastInputImageType (dim : Nat) : CppType := InternalRealImageType dim

/-- Bit width of the integer scalar types in the header's typedefs. -/
def bitWidth : CppType → Option Nat
  | CppType.shortT => some 16
  | _ => none

/-- C10 counterexample: at dimension 2, the image type threading the
pipeline (output of the parabolic stage and input of the threshold stage)
is not the short-valued InternalIntImageType: the claim that the 16-bit
internal integer image type threads the pipeline is false. -/
theorem internal_int_pipeline_counterexample :
    ¬ (circParaOutputImageType 2 = InternalIntImageType 2 ∧
       rectParaOutputImageType 2 = InternalIntImageType 2 ∧
       cCastInputImageType 2 = InternalIntImageType 2 ∧
       rCastInputImageType 2 = InternalIntImageType 2) := by decide

/-- C10 amended: InternalIntType is indeed defined as the 16-bit type
short, but it threads nothing: in every instantiation the pipeline stages
produce and consume InternalRealImageType, the floating-point internal
image type, and the short-valued InternalIntImageType typedef is distinct
from all of them, so no short-range bound arises from the pipeline's
typedefs. -/
theorem internal_int_unused_amended :
    InternalIntType = CppType.shortT ∧ bitWidth InternalIntType = some 16 ∧
    ∀ dim : Nat,
      circParaOutputImageType dim = InternalRealImageType dim ∧
      rectParaOutputImageType dim = InternalRealImageType dim ∧
      cCastInputImageType dim = InternalRealImageType dim ∧
      rCastInputImageType dim = InternalRealImageType dim ∧
      InternalIntImageType dim ≠ circParaOutputImageType dim := by
  refine ⟨rfl, rfl, ?_⟩
  intro dim
  refine ⟨rfl, rfl, rfl, rfl, ?_⟩
  intro h
  exact absurd (congrArg id h) (by simp [InternalIntImageType, circParaOutputImageType,
    InternalRealImageType, InternalIntType, InternalRealType])

/-- Witness for C10's amended statement at dimension 2. -/
theorem internal_int_unused_amended_witness :
    cCastInputImageType 2 = InternalRealImageType 2 ∧
    InternalIntImageType 2 ≠ circParaOutputImageType 2 :=
  ⟨(internal_int_unused_amended.2.2 2).2.2.1, (internal_int_unused_amended.2.2 2).2.2.2.2⟩
